import Mathlib

/-!
Verification of the agent-container message dispatch protocol
(`agent_container.py`): the two-phase interest/process handshake, the
polling loop, and the subscription fallback, shallowly embedded as pure
Lean functions over an explicit environment of agent and HTTP outcomes.
-/

/-- A Python value, as far as the dispatch code inspects one:
dictionaries (insertion-ordered key/value lists), lists, strings,
integers, booleans and None. -/
inductive PyVal where
  | pnone : PyVal
  | pbool (b : Bool) : PyVal
  | pint (n : Int) : PyVal
  | pstr (s : String) : PyVal
  | plist (xs : List PyVal) : PyVal
  | pdict (kvs : List (String × PyVal)) : PyVal

/-- A Python exception, by kind. -/
inductive Exc where
  | keyError (k : String) : Exc
  | typeError : Exc
  | attributeError : Exc
  | other (s : String) : Exc
deriving DecidableEq

/-- `v[k]` on a Python value: succeeds only on a dict containing `k`;
a dict missing the key raises `KeyError`, a non-dict raises `TypeError`. -/
def pyGet (v : PyVal) (k : String) : Except Exc PyVal :=
  match v with
  | .pdict kvs =>
    match kvs.lookup k with
    | some x => .ok x
    | none => .error (.keyError k)
  | _ => .error .typeError

/-- `v.get(k, d)` on a Python value: defined on dicts; any non-dict has
no `get` attribute and raises `AttributeError`. -/
def pyGetDefault (v : PyVal) (k : String) (d : PyVal) : Except Exc PyVal :=
  match v with
  | .pdict kvs => .ok ((kvs.lookup k).getD d)
  | _ => .error .attributeError

/-- Python truthiness of a value. -/
def truthy : PyVal → Bool
  | .pnone => false
  | .pbool b => b
  | .pint n => n != 0
  | .pstr s => !s.isEmpty
  | .plist xs => !xs.isEmpty
  | .pdict kvs => !kvs.isEmpty

/-- `str(v)`, to the precision the dispatch code needs (message ids are
strings; aggregates are rendered opaquely). -/
def pyStr : PyVal → String
  | .pnone => "None"
  | .pbool b => if b then "True" else "False"
  | .pint n => toString n
  | .pstr s => s
  | .plist _ => "<list>"
  | .pdict _ => "<dict>"

/-- Severity levels of the logger. -/
inductive LogLevel where
  | debug : LogLevel
  | info : LogLevel
  | warning : LogLevel
  | error : LogLevel
deriving DecidableEq

/-- Observable actions of the dispatch code, in program order: log lines,
the interest POST (with the message id in its URL and the score in its
body), an invocation of the agent adapter's process operation, the result
POST (with the message id and the submitted result record), and the
subscribe POST. -/
inductive Event where
  | log (lvl : LogLevel) (msg : String) : Event
  | interest (mid : String) (score : Rat) : Event
  | processCall (message : PyVal) : Event
  | resultSubmit (mid : String) (result : PyVal) : Event
  | subscribe : Event

/-- Outcome of one HTTP request: a response with a status code, or a
transport-level exception raised by the request call. -/
inductive HttpResult where
  | resp (status : Nat) : HttpResult
  | exc (e : Exc) : HttpResult

/-- Outcome of the pending-messages GET: HTTP 200 with a decoded list of
messages, some other status, or a raised transport exception. -/
inductive FetchResult where
  | ok200 (messages : List PyVal) : FetchResult
  | respOther (status : Nat) : FetchResult
  | exc (e : Exc) : FetchResult

/-- Behaviour of the pluggable agent class: constructing an instance,
`calculate_interest`, the `classifier_threshold` attribute, and
`process_message`; construction and the two calls may raise. -/
structure AgentBehavior where
  init : Except Exc Unit
  calculate_interest : PyVal → Except Exc Rat
  classifier_threshold : Rat
  process_message : PyVal → Except Exc PyVal

/-- The environment of one polling cycle: the configured identity
(`AGENT_ID`), the agent's behaviour, and the outcome of each outbound
HTTP call (interest and result POSTs keyed by the message id in the URL,
the subscribe POST, and the pending-messages GET). -/
structure Env where
  agent_id : String
  agent : AgentBehavior
  postInterest : String → HttpResult
  postResult : String → HttpResult
  postSubscribe : HttpResult
  fetch : FetchResult

/-- The `agent_id` augmentation applied to a truthy result before
submission (lines 144-146): inject `agent_id` into a dict result lacking
that key; leave every other value unchanged. -/
def augmentResult (aid : String) : PyVal → PyVal
  | .pdict kvs =>
    if (kvs.lookup "agent_id").isNone then
      .pdict (kvs ++ [("agent_id", .pstr aid)])
    else .pdict kvs
  | r => r

/-- The body of `process_message`'s `try` block (lines 118-164): build the
agent, compute the interest score, log it (evaluating `message['id']`),
POST the interest unconditionally, and if the score reaches the threshold
invoke the agent's process operation and, for a truthy result, inject
`agent_id` into a dict result lacking it and POST the result. Returns the
trace of events together with the exception escaping the block, if any. -/
def dispatchBody (env : Env) (message : PyVal) : List Event × Option Exc :=
  match env.agent.init with
  | .error e => ([], some e)
  | .ok _ =>
    match env.agent.calculate_interest message with
    | .error e => ([], some e)
    | .ok interest_score =>
      match pyGet message "id" with
      | .error e => ([], some e)
      | .ok idv =>
        let mid := pyStr idv
        let tr1 := [Event.log .info ("Interest score for message " ++ mid),
                    Event.interest mid interest_score]
        match env.postInterest mid with
        | .exc e => (tr1, some e)
        | .resp _ =>
          if interest_score ≥ env.agent.classifier_threshold then
            let tr2 := tr1 ++ [Event.processCall message]
            match env.agent.process_message message with
            | .error e => (tr2, some e)
            | .ok result =>
              if truthy result then
                let result1 := augmentResult env.agent_id result
                let tr3 := tr2 ++ [Event.resultSubmit mid result1]
                match env.postResult mid with
                | .exc e => (tr3, some e)
                | .resp st =>
                  if st = 200 then
                    (tr3 ++ [Event.log .info ("Successfully processed message " ++ mid)], none)
                  else
                    (tr3 ++ [Event.log .warning "Error submitting processing result"], none)
              else
                (tr2 ++ [Event.log .info ("Agent returned no result for message " ++ mid)], none)
          else
            (tr1 ++ [Event.log .info "Interest score below threshold, skipping processing"], none)

/-- `process_message` (lines 116-167): run the dispatch body; an escaping
exception is handled by logging at error level with
`message.get('id', 'unknown')` as the identifier — an expression that
itself raises when the message is not a dict, in which case that new
exception escapes `process_message` (the second component is `some` of it). -/
def process_message (env : Env) (message : PyVal) : List Event × Option Exc :=
  match dispatchBody env message with
  | (tr, none) => (tr, none)
  | (tr, some _) =>
    match pyGetDefault message "id" (.pstr "unknown") with
    | .ok idv => (tr ++ [Event.log .error ("Error processing message " ++ pyStr idv)], none)
    | .error e2 => (tr, some e2)

/-- `subscribe_to_events` (lines 85-114): POST the subscription; 200 logs
info and returns true, 404 logs only at debug level and returns false, any
other status logs a warning and returns false, and a raised exception is
caught, logged at debug level, and returns false. -/
def subscribe_to_events (env : Env) : List Event × Bool :=
  match env.postSubscribe with
  | .exc _ => ([Event.subscribe, Event.log .debug "Error subscribing to events"], false)
  | .resp st =>
    if st = 200 then
      ([Event.subscribe, Event.log .info "Successfully subscribed to events"], true)
    else if st = 404 then
      ([Event.subscribe,
        Event.log .debug "Event subscription not implemented yet, using polling mode"], false)
    else
      ([Event.subscribe, Event.log .warning "Failed to subscribe to events"], false)

/-- The `for message in messages` loop of `process_messages` (lines 75-76):
dispatch each message in order; an exception escaping `process_message`
aborts the loop and escapes with the events produced so far. -/
def dispatchBatch (env : Env) : List PyVal → List Event × Option Exc
  | [] => ([], none)
  | m :: ms =>
    match process_message env m with
    | (tr, some e) => (tr, some e)
    | (tr, none) =>
      match dispatchBatch env ms with
      | (tr2, e2) => (tr ++ tr2, e2)

/-- `process_messages` (lines 62-83): fetch pending messages; on HTTP 200
log receipt when the batch is non-empty, dispatch each message, then
attempt the event subscription; on any other status log an error and skip
both; a raised exception anywhere in the block (including one escaping a
dispatch) is caught here and logged. Always returns (never raises). -/
def process_messages (env : Env) : List Event :=
  match env.fetch with
  | .exc _ => [Event.log .error "Error checking for messages"]
  | .respOther _ => [Event.log .error "Failed to get pending messages"]
  | .ok200 messages =>
    let head := if messages.isEmpty then [] else [Event.log .info "Received messages to process"]
    match dispatchBatch env messages with
    | (tr, some _) => head ++ tr ++ [Event.log .error "Error checking for messages"]
    | (tr, none) => head ++ tr ++ (subscribe_to_events env).1

/-- The steady state of `main` (lines 178-180): one `process_messages`
call per cycle, each cycle with its own environment of outcomes. -/
def runCycles : List Env → List (List Event)
  | [] => []
  | env :: rest => process_messages env :: runCycles rest

/-- Recogniser for process-invocation events. -/
def isProcessCall : Event → Bool
  | .processCall _ => true
  | _ => false

/-- Number of times the agent adapter's process operation is invoked in a
trace. -/
def processCount (tr : List Event) : Nat := (tr.filter isProcessCall).length

/-- Recogniser for interest-submission events. -/
def isInterest : Event → Bool
  | .interest _ _ => true
  | _ => false

/-- Number of interest submissions attempted in a trace. -/
def interestCount (tr : List Event) : Nat := (tr.filter isInterest).length

/-- Recogniser for subscription-attempt events. -/
def isSubscribe : Event → Bool
  | .subscribe => true
  | _ => false

/-- Number of subscription attempts in a trace. -/
def subscribeCount (tr : List Event) : Nat := (tr.filter isSubscribe).length

/-- Recogniser for result-submission events. -/
def isResultSubmit : Event → Bool
  | .resultSubmit _ _ => true
  | _ => false

/-- Whether a Python value is a dict. -/
def isDict : PyVal → Bool
  | .pdict _ => true
  | _ => false

/-- A well-behaved agent: construction succeeds, every message scores 1
against a threshold of 0, and processing yields a summary record. -/
def okAgent : AgentBehavior where
  init := .ok ()
  calculate_interest := fun _ => .ok 1
  classifier_threshold := 0
  process_message := fun _ => .ok (.pdict [("summary", .pstr "done")])

/-- A cycle in which every HTTP call succeeds and the fetch is empty. -/
def baseEnv : Env where
  agent_id := "agent-1"
  agent := okAgent
  postInterest := fun _ => .resp 200
  postResult := fun _ => .resp 200
  postSubscribe := .resp 200
  fetch := .ok200 []

/-- A message with id `m1`. -/
def msg1 : PyVal := .pdict [("id", .pstr "m1")]

/-- A message with id `m2`. -/
def msg2 : PyVal := .pdict [("id", .pstr "m2")]

/-- Like `baseEnv`, but the interest POST raises a transport error. -/
def envInterestDown : Env :=
  { baseEnv with postInterest := fun _ => .exc (.other "connection refused") }

/-- Like `baseEnv`, but the pending-messages GET returns HTTP 500. -/
def envFetch500 : Env := { baseEnv with fetch := .respOther 500 }

/-- An agent that raises while scoring any non-dict message and scores
dict messages at 1 (threshold 0). -/
def scoreCrashAgent : AgentBehavior :=
  { okAgent with
    calculate_interest := fun m =>
      match m with
      | .pdict _ => .ok 1
      | _ => .error (.other "boom") }

/-- A cycle whose batch opens with a non-dict message that the agent
cannot even score, followed by a well-formed message. -/
def envScoreCrash : Env :=
  { baseEnv with agent := scoreCrashAgent, fetch := .ok200 [.pstr "bad", msg2] }

/-- Like `baseEnv`, but processing returns a (truthy) plain string. -/
def envStrResult : Env :=
  { baseEnv with agent := { okAgent with process_message := fun _ => .ok (.pstr "done") } }

/-- A cycle whose batch holds a well-formed message, then a non-dict
message, then another well-formed message. -/
def envBatchBad : Env := { baseEnv with fetch := .ok200 [msg1, .pstr "bad", msg2] }

/-- Like `baseEnv`, but the subscribe POST returns HTTP 404. -/
def envSub404 : Env := { baseEnv with postSubscribe := .resp 404 }

lemma pyGet_ok (m : PyVal) (k : String) (v : PyVal) (h : pyGet m k = .ok v) :
    ∃ kvs, m = .pdict kvs ∧ kvs.lookup k = some v := by
  cases m <;> simp only [pyGet] at h
  case pdict kvs =>
    cases hl : kvs.lookup k <;> rw [hl] at h
    · cases h
    · cases h; exact ⟨kvs, rfl, hl⟩
  all_goals cases h

lemma dispatchBody_processCount_resp (env : Env) (m : PyVal) (s : Rat) (idv : PyVal) (st : Nat)
    (hinit : env.agent.init = .ok ())
    (hscore : env.agent.calculate_interest m = .ok s)
    (hid : pyGet m "id" = .ok idv)
    (hpost : env.postInterest (pyStr idv) = .resp st) :
    processCount (dispatchBody env m).1 =
      if s ≥ env.agent.classifier_threshold then 1 else 0 := by
  unfold dispatchBody
  rw [hinit, hscore, hid]
  dsimp only
  rw [hpost]
  by_cases hθ : s ≥ env.agent.classifier_threshold
  · rw [if_pos hθ]
    rcases env.agent.process_message m with e | r
    · simp [processCount, isProcessCall, hθ]
    · by_cases ht : truthy r
      · simp only [ht, if_pos]
        rcases env.postResult (pyStr idv) with st2 | e2
        · by_cases h200 : st2 = 200 <;> simp [h200, processCount, isProcessCall, hθ]
        · simp [processCount, isProcessCall, hθ]
      · simp [ht, processCount, isProcessCall, hθ]
  · rw [if_neg hθ]
    simp [processCount, isProcessCall, hθ]

lemma process_message_fst (env : Env) (m : PyVal) :
    (process_message env m).1 = (dispatchBody env m).1 ∨
    ∃ msg, (process_message env m).1 = (dispatchBody env m).1 ++ [Event.log .error msg] := by
  unfold process_message
  rcases hdb : dispatchBody env m with ⟨tr, _ | e⟩
  · left; rfl
  · rcases hg : pyGetDefault m "id" (.pstr "unknown") with e2 | v
    · left; simp [hdb, hg]
    · right; exact ⟨"Error processing message " ++ pyStr v, by simp [hdb, hg]⟩

lemma process_message_pdict_none (env : Env) (kvs : List (String × PyVal)) :
    (process_message env (.pdict kvs)).2 = none := by
  unfold process_message
  rcases dispatchBody env (.pdict kvs) with ⟨tr, _ | e⟩
  · rfl
  · simp [pyGetDefault]

lemma dispatchBody_shape (env : Env) (m : PyVal) :
    (dispatchBody env m).1 = []
    ∨ ∃ idv s tail, pyGet m "id" = .ok idv
        ∧ (dispatchBody env m).1 =
            Event.log .info ("Interest score for message " ++ pyStr idv)
              :: Event.interest (pyStr idv) s :: tail
        ∧ ∀ ev ∈ tail, (isInterest ev = false ∧ isSubscribe ev = false ∧
            ∀ mid r, ev = Event.resultSubmit mid r → mid = pyStr idv) := by
  unfold dispatchBody
  rcases env.agent.init with e | u
  · left; rfl
  · rcases env.agent.calculate_interest m with e | s0
    · left; rfl
    · rcases hid : pyGet m "id" with e | idv
      · left; rfl
      · right
        dsimp only
        rcases env.postInterest (pyStr idv) with st | e
        · dsimp only
          by_cases hθ : s0 ≥ env.agent.classifier_threshold
          · rw [if_pos hθ]
            rcases env.agent.process_message m with e | r
            · dsimp only
              refine ⟨idv, s0, _, rfl, rfl, ?_⟩
              intro ev hev
              simp at hev
              subst hev
              exact ⟨rfl, rfl, by intro mid r2 heq; injection heq⟩
            · dsimp only
              by_cases ht : truthy r
              · rw [if_pos ht]
                rcases env.postResult (pyStr idv) with st2 | e2
                · dsimp only
                  by_cases h200 : st2 = 200
                  · rw [if_pos h200]
                    refine ⟨idv, s0, _, rfl, rfl, ?_⟩
                    intro ev hev
                    simp at hev
                    rcases hev with h | h | h <;> subst h
                    · exact ⟨rfl, rfl, by intro mid r2 heq; injection heq⟩
                    · refine ⟨rfl, rfl, ?_⟩
                      intro mid r2 heq
                      injection heq with h1 h2
                      exact h1.symm
                    · exact ⟨rfl, rfl, by intro mid r2 heq; injection heq⟩
                  · rw [if_neg h200]
                    refine ⟨idv, s0, _, rfl, rfl, ?_⟩
                    intro ev hev
                    simp at hev
                    rcases hev with h | h | h <;> subst h
                    · exact ⟨rfl, rfl, by intro mid r2 heq; injection heq⟩
                    · refine ⟨rfl, rfl, ?_⟩
                      intro mid r2 heq
                      injection heq with h1 h2
                      exact h1.symm
                    · exact ⟨rfl, rfl, by intro mid r2 heq; injection heq⟩
                · dsimp only
                  refine ⟨idv, s0, _, rfl, rfl, ?_⟩
                  intro ev hev
                  simp at hev
                  rcases hev with h | h <;> subst h
                  · exact ⟨rfl, rfl, by intro mid r2 heq; injection heq⟩
                  · refine ⟨rfl, rfl, ?_⟩
                    intro mid r2 heq
                    injection heq with h1 h2
                    exact h1.symm
              · rw [if_neg ht]
                refine ⟨idv, s0, _, rfl, rfl, ?_⟩
                intro ev hev
                simp at hev
                rcases hev with h | h <;> subst h
                · exact ⟨rfl, rfl, by intro mid r2 heq; injection heq⟩
                · exact ⟨rfl, rfl, by intro mid r2 heq; injection heq⟩
          · rw [if_neg hθ]
            refine ⟨idv, s0, _, rfl, rfl, ?_⟩
            intro ev hev
            simp at hev
            subst hev
            exact ⟨rfl, rfl, by intro mid r2 heq; injection heq⟩
        · exact ⟨idv, s0, [], rfl, rfl, by simp⟩

lemma processCount_handler (env : Env) (m : PyVal) :
    processCount (process_message env m).1 = processCount (dispatchBody env m).1 := by
  rcases process_message_fst env m with h | ⟨msg, h⟩ <;> rw [h]
  simp [processCount, List.filter_append, isProcessCall]

lemma dispatchBody_no_subscribe (env : Env) (m : PyVal) (ev : Event)
    (hev : ev ∈ (dispatchBody env m).1) : isSubscribe ev = false := by
  rcases dispatchBody_shape env m with h | ⟨idv, s, tail, _, h, htail⟩ <;> rw [h] at hev
  · simp at hev
  · simp at hev
    rcases hev with h1 | h1 | h1
    · subst h1; rfl
    · subst h1; rfl
    · exact (htail ev h1).2.1

lemma process_message_no_subscribe (env : Env) (m : PyVal) (ev : Event)
    (hev : ev ∈ (process_message env m).1) : isSubscribe ev = false := by
  rcases process_message_fst env m with h | ⟨msg, h⟩ <;> rw [h] at hev
  · exact dispatchBody_no_subscribe env m ev hev
  · rcases List.mem_append.mp hev with h1 | h1
    · exact dispatchBody_no_subscribe env m ev h1
    · simp at h1
      subst h1; rfl

lemma subscribeCount_append (a b : List Event) :
    subscribeCount (a ++ b) = subscribeCount a + subscribeCount b := by
  simp [subscribeCount, List.filter_append]

lemma subscribeCount_eq_zero (tr : List Event) (h : ∀ ev ∈ tr, isSubscribe ev = false) :
    subscribeCount tr = 0 := by
  induction tr with
  | nil => rfl
  | cons a l ih =>
    have ha := h a (List.mem_cons_self a l)
    have hl := fun ev hev => h ev (List.mem_cons_of_mem a hev)
    simp only [subscribeCount, List.filter_cons, ha] at ih ⊢
    simpa using ih hl

lemma dispatchBatch_no_subscribe (env : Env) (ms : List PyVal) (ev : Event)
    (hev : ev ∈ (dispatchBatch env ms).1) : isSubscribe ev = false := by
  induction ms with
  | nil => simp [dispatchBatch] at hev
  | cons m rest ih =>
    unfold dispatchBatch at hev
    rcases hpm : process_message env m with ⟨tr, e?⟩
    rw [hpm] at hev
    rcases e? with _ | e
    · dsimp only at hev
      rcases hdb : dispatchBatch env rest with ⟨tr2, e2⟩
      rw [hdb] at hev
      dsimp only at hev
      rcases List.mem_append.mp hev with h1 | h1
      · exact process_message_no_subscribe env m ev (by rw [hpm]; exact h1)
      · exact ih (by rw [hdb]; exact h1)
    · exact process_message_no_subscribe env m ev (by rw [hpm]; exact hev)

lemma subscribe_to_events_count (env : Env) :
    subscribeCount (subscribe_to_events env).1 = 1 := by
  unfold subscribe_to_events
  rcases env.postSubscribe with st | e
  · dsimp only
    by_cases h200 : st = 200
    · rw [if_pos h200]; rfl
    · rw [if_neg h200]
      by_cases h404 : st = 404
      · rw [if_pos h404]; rfl
      · rw [if_neg h404]; rfl
  · rfl

lemma runCycles_length (envs : List Env) : (runCycles envs).length = envs.length := by
  induction envs with
  | nil => rfl
  | cons e rest ih => simp [runCycles, ih]

lemma interest_mem_dispatchBody (env : Env) (m : PyVal) (s : Rat) (idv : PyVal)
    (hinit : env.agent.init = .ok ())
    (hscore : env.agent.calculate_interest m = .ok s)
    (hid : pyGet m "id" = .ok idv) :
    Event.interest (pyStr idv) s ∈ (dispatchBody env m).1 := by
  unfold dispatchBody
  rw [hinit, hscore, hid]
  dsimp only
  rcases env.postInterest (pyStr idv) with st | e
  · dsimp only
    by_cases hθ : s ≥ env.agent.classifier_threshold
    · rw [if_pos hθ]
      rcases env.agent.process_message m with e | r
      · simp
      · dsimp only
        by_cases ht : truthy r
        · rw [if_pos ht]
          rcases env.postResult (pyStr idv) with st2 | e2
          · dsimp only
            by_cases h200 : st2 = 200
            · rw [if_pos h200]; simp
            · rw [if_neg h200]; simp
          · simp
        · rw [if_neg ht]; simp
    · rw [if_neg hθ]; simp
  · simp

lemma interest_mem_process_message (env : Env) (m : PyVal) (s : Rat) (idv : PyVal)
    (hinit : env.agent.init = .ok ())
    (hscore : env.agent.calculate_interest m = .ok s)
    (hid : pyGet m "id" = .ok idv) :
    Event.interest (pyStr idv) s ∈ (process_message env m).1 := by
  rcases process_message_fst env m with h | ⟨msg, h⟩ <;> rw [h]
  · exact interest_mem_dispatchBody env m s idv hinit hscore hid
  · exact List.mem_append_left _ (interest_mem_dispatchBody env m s idv hinit hscore hid)

lemma dispatchBody_interest_exc (env : Env) (m : PyVal) (s : Rat) (idv : PyVal) (e : Exc)
    (hinit : env.agent.init = .ok ())
    (hscore : env.agent.calculate_interest m = .ok s)
    (hid : pyGet m "id" = .ok idv)
    (hpost : env.postInterest (pyStr idv) = .exc e) :
    dispatchBody env m =
      ([Event.log .info ("Interest score for message " ++ pyStr idv),
        Event.interest (pyStr idv) s], some e) := by
  unfold dispatchBody
  rw [hinit, hscore, hid]
  dsimp only
  rw [hpost]

lemma process_message_interest_exc (env : Env) (m : PyVal) (s : Rat) (idv : PyVal) (e : Exc)
    (hinit : env.agent.init = .ok ())
    (hscore : env.agent.calculate_interest m = .ok s)
    (hid : pyGet m "id" = .ok idv)
    (hpost : env.postInterest (pyStr idv) = .exc e) :
    process_message env m =
      ([Event.log .info ("Interest score for message " ++ pyStr idv),
        Event.interest (pyStr idv) s,
        Event.log .error ("Error processing message " ++ pyStr idv)], none) := by
  obtain ⟨kvs, hm, hl⟩ := pyGet_ok m "id" idv hid
  unfold process_message
  rw [dispatchBody_interest_exc env m s idv e hinit hscore hid hpost]
  subst hm
  simp [pyGetDefault, hl]

lemma resultSubmit_mem (env : Env) (m : PyVal) (s : Rat) (idv : PyVal) (st : Nat) (r : PyVal)
    (hinit : env.agent.init = .ok ())
    (hscore : env.agent.calculate_interest m = .ok s)
    (hid : pyGet m "id" = .ok idv)
    (hpost : env.postInterest (pyStr idv) = .resp st)
    (hθ : s ≥ env.agent.classifier_threshold)
    (hproc : env.agent.process_message m = .ok r)
    (ht : truthy r = true) :
    Event.resultSubmit (pyStr idv) (augmentResult env.agent_id r)
      ∈ (process_message env m).1 := by
  have hdb : Event.resultSubmit (pyStr idv) (augmentResult env.agent_id r)
      ∈ (dispatchBody env m).1 := by
    unfold dispatchBody
    rw [hinit, hscore, hid]
    dsimp only
    rw [hpost]
    rw [if_pos hθ]
    rw [hproc]
    dsimp only
    rw [if_pos ht]
    rcases env.postResult (pyStr idv) with st2 | e2
    · dsimp only
      by_cases h200 : st2 = 200
      · rw [if_pos h200]; simp
      · rw [if_neg h200]; simp
    · simp
  rcases process_message_fst env m with h | ⟨msg, h⟩ <;> rw [h]
  · exact hdb
  · exact List.mem_append_left _ hdb

lemma dispatchBody_interest_precedes (env : Env) (m : PyVal) (mid : String) (r : PyVal)
    (h : Event.resultSubmit mid r ∈ (dispatchBody env m).1) :
    ∃ pre s rest, (dispatchBody env m).1 = pre ++ Event.interest mid s :: rest
      ∧ Event.resultSubmit mid r ∈ rest := by
  rcases dispatchBody_shape env m with hs | ⟨idv, s, tail, _, hs, htail⟩ <;> rw [hs] at h
  · simp at h
  · have hmem : Event.resultSubmit mid r ∈ tail := by
      rcases List.mem_cons.mp h with h1 | h2
      · exact absurd h1 (by simp)
      · rcases List.mem_cons.mp h2 with h3 | h4
        · exact absurd h3 (by simp)
        · exact h4
    have hmid : mid = pyStr idv := (htail _ hmem).2.2 mid r rfl
    refine ⟨[Event.log .info ("Interest score for message " ++ pyStr idv)], s, tail, ?_, hmem⟩
    rw [hs, hmid]
    rfl

lemma dispatchBatch_cons_none (env : Env) (m : PyVal) (rest : List PyVal)
    (h : (process_message env m).2 = none) :
    dispatchBatch env (m :: rest) =
      ((process_message env m).1 ++ (dispatchBatch env rest).1,
       (dispatchBatch env rest).2) := by
  have step : dispatchBatch env (m :: rest) =
      match process_message env m with
      | (tr, some e) => (tr, some e)
      | (tr, none) =>
        match dispatchBatch env rest with
        | (tr2, e2) => (tr ++ tr2, e2) := rfl
  rcases hpm : process_message env m with ⟨tr, e?⟩
  rw [hpm] at h step
  dsimp only at h
  subst h
  rw [step]

lemma dispatchBatch_escape (env : Env) (pre : List PyVal) (bad : PyVal) (post : List PyVal)
    (e : Exc)
    (hpre : ∀ m ∈ pre, (process_message env m).2 = none)
    (hbad : (process_message env bad).2 = some e) :
    dispatchBatch env (pre ++ bad :: post) =
      ((pre.map fun m => (process_message env m).1).flatten ++ (process_message env bad).1,
       some e) := by
  induction pre with
  | nil =>
    simp only [List.nil_append, List.map_nil, List.flatten_nil]
    have step : dispatchBatch env (bad :: post) =
        match process_message env bad with
        | (tr, some e) => (tr, some e)
        | (tr, none) =>
          match dispatchBatch env post with
          | (tr2, e2) => (tr ++ tr2, e2) := rfl
    rcases hpm : process_message env bad with ⟨tr, e?⟩
    rw [hpm] at hbad step
    dsimp only at hbad
    subst hbad
    rw [step]
  | cons p ps ih =>
    have hp := hpre p (List.mem_cons_self p ps)
    have hps := fun m hm => hpre m (List.mem_cons_of_mem p hm)
    rw [List.cons_append]
    rw [dispatchBatch_cons_none env p (ps ++ bad :: post) hp]
    rw [ih hps]
    simp [List.append_assoc]

/-- Claim C1, as stated, is false of the code: in `envInterestDown` the
score of `msg1` is 1, at least the threshold 0, yet the interest POST
raises a transport error, the exception is handled at the dispatch
boundary, and the process operation is never invoked. -/
theorem C1_counterexample :
    envInterestDown.agent.calculate_interest msg1 = .ok 1
    ∧ (1 : Rat) ≥ envInterestDown.agent.classifier_threshold
    ∧ processCount (process_message envInterestDown msg1).1 = 0 :=
  ⟨rfl, by decide, rfl⟩

/-- Claim C1 (amended): for dispatches that reach the threshold
comparison — agent construction, scoring and the id lookup succeed, and
the interest POST returns a response rather than raising — the process
operation is invoked exactly once when the score is at least the
threshold and never when it is below; an interest POST that raises
instead aborts the dispatch before the comparison. -/
theorem C1_amended_process_gate (env : Env) (m : PyVal) (s : Rat) (idv : PyVal) (st : Nat)
    (hinit : env.agent.init = .ok ())
    (hscore : env.agent.calculate_interest m = .ok s)
    (hid : pyGet m "id" = .ok idv)
    (hpost : env.postInterest (pyStr idv) = .resp st) :
    processCount (process_message env m).1 =
      if s ≥ env.agent.classifier_threshold then 1 else 0 := by
  rw [processCount_handler]
  exact dispatchBody_processCount_resp env m s idv st hinit hscore hid hpost

/-- Claim C1 witness: in the all-success cycle `baseEnv`, message `m1`
scores 1 against threshold 0 and the process operation runs exactly once. -/
theorem C1_amended_process_gate_witness :
    processCount (process_message baseEnv msg1).1 = 1 :=
  C1_amended_process_gate baseEnv msg1 1 (.pstr "m1") 200 rfl rfl rfl rfl

/-- Claim C2, as stated, is false of the code: in `envInterestDown` the
interest POST for `msg2` raises; the failure is logged at the dispatch
boundary, but phase 2 is aborted — no threshold comparison and no
processing happen even though the score 1 meets the threshold 0. -/
theorem C2_counterexample :
    process_message envInterestDown msg2 =
      ([Event.log .info "Interest score for message m2",
        Event.interest "m2" 1,
        Event.log .error "Error processing message m2"], none)
    ∧ (1 : Rat) ≥ envInterestDown.agent.classifier_threshold
    ∧ processCount (process_message envInterestDown msg2).1 = 0 :=
  ⟨rfl, by decide, rfl⟩

/-- Claim C2 (amended): once a dispatch computes a score and finds the
message id, the interest submission is attempted regardless of the
score's value; if the interest POST returns a response — any status,
unchecked and unlogged — the dispatch proceeds to the threshold
comparison gated by the locally computed score; if the interest POST
raises, the failure is logged at error level by the dispatch handler and
phase 2 is aborted (the process operation is not invoked). -/
theorem C2_amended_interest_submission (env : Env) (m : PyVal) (s : Rat) (idv : PyVal)
    (hinit : env.agent.init = .ok ())
    (hscore : env.agent.calculate_interest m = .ok s)
    (hid : pyGet m "id" = .ok idv) :
    Event.interest (pyStr idv) s ∈ (process_message env m).1
    ∧ (∀ st, env.postInterest (pyStr idv) = .resp st →
        processCount (process_message env m).1 =
          if s ≥ env.agent.classifier_threshold then 1 else 0)
    ∧ (∀ e, env.postInterest (pyStr idv) = .exc e →
        processCount (process_message env m).1 = 0
        ∧ Event.log .error ("Error processing message " ++ pyStr idv)
            ∈ (process_message env m).1) := by
  refine ⟨interest_mem_process_message env m s idv hinit hscore hid, ?_, ?_⟩
  · intro st hpost
    rw [processCount_handler]
    exact dispatchBody_processCount_resp env m s idv st hinit hscore hid hpost
  · intro e hpost
    have hpm := process_message_interest_exc env m s idv e hinit hscore hid hpost
    rw [hpm]
    exact ⟨rfl, by simp⟩

/-- Claim C2 witness: instantiated at `baseEnv` and `m1`: the interest
event is in the trace, and both interest-POST outcomes behave as the
amended claim states. -/
theorem C2_amended_interest_submission_witness :
    Event.interest "m1" 1 ∈ (process_message baseEnv msg1).1
    ∧ (∀ st, baseEnv.postInterest "m1" = .resp st →
        processCount (process_message baseEnv msg1).1 =
          if (1 : Rat) ≥ baseEnv.agent.classifier_threshold then 1 else 0)
    ∧ (∀ e, baseEnv.postInterest "m1" = .exc e →
        processCount (process_message baseEnv msg1).1 = 0
        ∧ Event.log .error "Error processing message m1"
            ∈ (process_message baseEnv msg1).1) :=
  C2_amended_interest_submission baseEnv msg1 1 (.pstr "m1") rfl rfl rfl

/-- Claim C3, as stated, is false of the code: when the pending-messages
GET returns HTTP 500, the cycle logs the failure and makes no
subscription attempt at all. -/
theorem C3_counterexample :
    envFetch500.fetch = .respOther 500
    ∧ process_messages envFetch500 = [Event.log .error "Failed to get pending messages"]
    ∧ subscribeCount (process_messages envFetch500) = 0 :=
  ⟨rfl, rfl, rfl⟩

/-- Claim C3 (amended): a subscription attempt is made on exactly those
Control Loop iterations whose pending-messages fetch returns HTTP 200
and whose batch dispatch completes without an escaping exception; an
iteration whose fetch has a non-200 status or raises, or whose dispatch
loop is aborted by an escaping exception, makes no subscription attempt. -/
theorem C3_amended_subscribe_condition (env : Env) :
    subscribeCount (process_messages env) =
      match env.fetch with
      | .ok200 msgs => if (dispatchBatch env msgs).2.isNone then 1 else 0
      | _ => 0 := by
  unfold process_messages
  rcases env.fetch with msgs | st | e
  · dsimp only
    rcases hdb : dispatchBatch env msgs with ⟨tr, e?⟩
    have h2 : subscribeCount tr = 0 :=
      subscribeCount_eq_zero tr
        (fun ev hev => dispatchBatch_no_subscribe env msgs ev (by rw [hdb]; exact hev))
    rcases e? with _ | e2
    · dsimp only
      rw [subscribeCount_append, subscribeCount_append, subscribe_to_events_count, h2]
      by_cases hm : msgs.isEmpty = true
      · rw [if_pos hm]; rfl
      · rw [if_neg hm]; rfl
    · dsimp only
      rw [subscribeCount_append, subscribeCount_append, h2]
      by_cases hm : msgs.isEmpty = true
      · rw [if_pos hm]; rfl
      · rw [if_neg hm]; rfl
  · rfl
  · rfl

/-- Claim C4: when the score passes the threshold and the process
operation returns a truthy dict, the submitted result is exactly that
dict with `agent_id` bound to the configured identity appended when the
key was absent, and exactly the unmodified dict when the key was already
present — in both cases every other field is unchanged. -/
theorem C4_agent_id_injection (env : Env) (m : PyVal) (s : Rat) (idv : PyVal) (st : Nat)
    (kvs : List (String × PyVal))
    (hinit : env.agent.init = .ok ())
    (hscore : env.agent.calculate_interest m = .ok s)
    (hid : pyGet m "id" = .ok idv)
    (hpost : env.postInterest (pyStr idv) = .resp st)
    (hθ : s ≥ env.agent.classifier_threshold)
    (hproc : env.agent.process_message m = .ok (.pdict kvs))
    (hne : kvs ≠ []) :
    (kvs.lookup "agent_id" = none →
      Event.resultSubmit (pyStr idv) (.pdict (kvs ++ [("agent_id", .pstr env.agent_id)]))
        ∈ (process_message env m).1)
    ∧ (∀ v, kvs.lookup "agent_id" = some v →
      Event.resultSubmit (pyStr idv) (.pdict kvs) ∈ (process_message env m).1) := by
  have ht : truthy (.pdict kvs) = true := by
    cases kvs with
    | nil => exact absurd rfl hne
    | cons a l => rfl
  have base := resultSubmit_mem env m s idv st (.pdict kvs) hinit hscore hid hpost hθ hproc ht
  constructor
  · intro hnone
    have ha : augmentResult env.agent_id (.pdict kvs)
        = .pdict (kvs ++ [("agent_id", .pstr env.agent_id)]) := by
      simp [augmentResult, hnone]
    rwa [ha] at base
  · intro v hsome
    have ha : augmentResult env.agent_id (.pdict kvs) = .pdict kvs := by
      simp [augmentResult, hsome]
    rwa [ha] at base

/-- Claim C4 witness: in `baseEnv`, processing `m1` yields a dict lacking
`agent_id`; the submitted record is that dict with the pair
`("agent_id", "agent-1")` appended and the other field untouched. -/
theorem C4_agent_id_injection_witness :
    Event.resultSubmit "m1" (.pdict [("summary", .pstr "done"), ("agent_id", .pstr "agent-1")])
      ∈ (process_message baseEnv msg1).1 :=
  (C4_agent_id_injection baseEnv msg1 1 (.pstr "m1") 200 [("summary", .pstr "done")]
    rfl rfl rfl rfl (by decide) rfl (by simp)).1 rfl

/-- Claim C5, as stated, is false of the code: in `envScoreCrash` the
batch is `["bad", m2]`; scoring the non-dict first message raises, the
error handler's own id lookup raises too, the loop over the batch is
aborted, and `m2` — which on its own would be processed — is never
dispatched (the cycle performs no interest submission at all). -/
theorem C5_counterexample :
    envScoreCrash.fetch = .ok200 [.pstr "bad", msg2]
    ∧ envScoreCrash.agent.calculate_interest (.pstr "bad") = .error (.other "boom")
    ∧ process_messages envScoreCrash =
        [Event.log .info "Received messages to process",
         Event.log .error "Error checking for messages"]
    ∧ interestCount (process_messages envScoreCrash) = 0
    ∧ processCount (process_message envScoreCrash msg2).1 = 1 :=
  ⟨rfl, rfl, rfl, rfl, rfl⟩

/-- Claim C5 (amended): batch isolation holds for mapping messages — when
dispatching a dict message raises anywhere in the dispatch body, the
exception is contained at the dispatch boundary and the rest of the
batch is dispatched exactly as it would be on its own. -/
theorem C5_amended_batch_isolation (env : Env) (kvs : List (String × PyVal))
    (rest : List PyVal) (e : Exc)
    (herr : (dispatchBody env (.pdict kvs)).2 = some e) :
    dispatchBatch env (.pdict kvs :: rest) =
      ((process_message env (.pdict kvs)).1 ++ (dispatchBatch env rest).1,
       (dispatchBatch env rest).2) :=
  dispatchBatch_cons_none env (.pdict kvs) rest (process_message_pdict_none env kvs)

/-- Claim C5 witness: in `baseEnv` an empty-dict message raises a
`KeyError` on its id lookup, yet the following message `m2` is still
dispatched. -/
theorem C5_amended_batch_isolation_witness :
    dispatchBatch baseEnv (.pdict [] :: [msg2]) =
      ((process_message baseEnv (.pdict [])).1 ++ (dispatchBatch baseEnv [msg2]).1,
       (dispatchBatch baseEnv [msg2]).2) :=
  C5_amended_batch_isolation baseEnv [] [msg2] (.keyError "id") rfl

/-- Claim C6, as stated, is false of the code: dispatching the non-dict
message "bad" raises a TypeError at the id lookup, and the error
handler's own `message.get` raises an AttributeError that escapes the
Dispatch Engine uncontained, with nothing logged. -/
theorem C6_counterexample :
    (process_message baseEnv (.pstr "bad")).2 = some Exc.attributeError
    ∧ (process_message baseEnv (.pstr "bad")).1 = [] :=
  ⟨rfl, rfl⟩

/-- Claim C6 (amended): for mapping messages containment holds — any
exception raised in the dispatch body is caught at the dispatch boundary
and logged at error level with the message's id, or the literal
`unknown` when the id key is absent, and does not escape; for
non-mapping messages the handler itself raises and the exception escapes
the Dispatch Engine to the polling level. -/
theorem C6_amended_error_containment (env : Env) (kvs : List (String × PyVal)) (e : Exc)
    (h : (dispatchBody env (.pdict kvs)).2 = some e) :
    (process_message env (.pdict kvs)).2 = none
    ∧ Event.log .error ("Error processing message "
        ++ pyStr ((kvs.lookup "id").getD (.pstr "unknown")))
        ∈ (process_message env (.pdict kvs)).1 := by
  refine ⟨process_message_pdict_none env kvs, ?_⟩
  unfold process_message
  rcases hdb : dispatchBody env (.pdict kvs) with ⟨tr, e?⟩
  rw [hdb] at h
  dsimp only at h
  subst h
  simp [pyGetDefault]

/-- Claim C6 witness: an empty-dict message raises `KeyError` on its id
lookup; the dispatch boundary contains it and logs with the fallback
identifier `unknown`. -/
theorem C6_amended_error_containment_witness :
    (process_message baseEnv (.pdict [])).2 = none
    ∧ Event.log .error ("Error processing message "
        ++ pyStr ((([] : List (String × PyVal)).lookup "id").getD (.pstr "unknown")))
        ∈ (process_message baseEnv (.pdict [])).1 :=
  C6_amended_error_containment baseEnv [] (.keyError "id") rfl

/-- Claim C7: a result submission for a message happens only strictly
after an interest submission with the same message id, within the same
dispatch trace. -/
theorem C7_interest_precedes_result (env : Env) (m : PyVal) (mid : String) (r : PyVal)
    (h : Event.resultSubmit mid r ∈ (process_message env m).1) :
    ∃ pre s rest, (process_message env m).1 = pre ++ Event.interest mid s :: rest
      ∧ Event.resultSubmit mid r ∈ rest := by
  rcases process_message_fst env m with hf | ⟨msg, hf⟩ <;> rw [hf] at h ⊢
  · exact dispatchBody_interest_precedes env m mid r h
  · have hdbm : Event.resultSubmit mid r ∈ (dispatchBody env m).1 := by
      rcases List.mem_append.mp h with h1 | h1
      · exact h1
      · simp at h1
    obtain ⟨pre, s, rest, heq, hmem⟩ := dispatchBody_interest_precedes env m mid r hdbm
    refine ⟨pre, s, rest ++ [Event.log .error msg], ?_, List.mem_append_left _ hmem⟩
    rw [heq]
    simp

/-- Claim C7 witness: in the all-success dispatch of `m1`, the result
submission appears strictly after the interest submission for `m1`. -/
theorem C7_interest_precedes_result_witness :
    ∃ pre s rest, (process_message baseEnv msg1).1 = pre ++ Event.interest "m1" s :: rest
      ∧ Event.resultSubmit "m1"
          (.pdict [("summary", .pstr "done"), ("agent_id", .pstr "agent-1")]) ∈ rest :=
  C7_interest_precedes_result baseEnv msg1 "m1" _ (by
    have h : (process_message baseEnv msg1).1 =
        [Event.log .info "Interest score for message m1",
         Event.interest "m1" 1,
         Event.processCall msg1,
         Event.resultSubmit "m1"
           (.pdict [("summary", .pstr "done"), ("agent_id", .pstr "agent-1")]),
         Event.log .info "Successfully processed message m1"] := rfl
    rw [h]
    simp)

/-- Claim C8: an HTTP 404 response to the subscribe POST yields a false
return, produces only debug-level log entries (no warning- or
error-level entry), and leaves polling unaffected: every subsequent
cycle still executes. -/
theorem C8_subscription_404 (env : Env) (h : env.postSubscribe = .resp 404) :
    (subscribe_to_events env).2 = false
    ∧ (∀ lvl msg, Event.log lvl msg ∈ (subscribe_to_events env).1 → lvl = .debug)
    ∧ ∀ envs : List Env, (runCycles (env :: envs)).length = envs.length + 1 := by
  have hs : subscribe_to_events env =
      ([Event.subscribe,
        Event.log .debug "Event subscription not implemented yet, using polling mode"],
       false) := by
    unfold subscribe_to_events
    rw [h]
    rfl
  refine ⟨by rw [hs], ?_, fun envs => by simpa using runCycles_length (env :: envs)⟩
  intro lvl msg hm
  rw [hs] at hm
  simp at hm
  exact hm.1

/-- Claim C8 witness: `envSub404` receives 404 from the subscribe POST:
false return, only a debug log, and following cycles still run. -/
theorem C8_subscription_404_witness :
    (subscribe_to_events envSub404).2 = false
    ∧ (∀ lvl msg, Event.log lvl msg ∈ (subscribe_to_events envSub404).1 → lvl = .debug)
    ∧ ∀ envs : List Env, (runCycles (envSub404 :: envs)).length = envs.length + 1 :=
  C8_subscription_404 envSub404 rfl

/-- Claim C9: a truthy non-dict result is submitted to the result
endpoint entirely unchanged — the `agent_id` injection applies only to
dict results. -/
theorem C9_nondict_result_unchanged (env : Env) (m : PyVal) (s : Rat) (idv : PyVal)
    (st : Nat) (r : PyVal)
    (hinit : env.agent.init = .ok ())
    (hscore : env.agent.calculate_interest m = .ok s)
    (hid : pyGet m "id" = .ok idv)
    (hpost : env.postInterest (pyStr idv) = .resp st)
    (hθ : s ≥ env.agent.classifier_threshold)
    (hproc : env.agent.process_message m = .ok r)
    (hnd : isDict r = false)
    (ht : truthy r = true) :
    Event.resultSubmit (pyStr idv) r ∈ (process_message env m).1 := by
  have base := resultSubmit_mem env m s idv st r hinit hscore hid hpost hθ hproc ht
  have ha : augmentResult env.agent_id r = r := by
    cases r <;> simp [augmentResult] <;> simp [isDict] at hnd
  rwa [ha] at base

/-- Claim C9 witness: in `envStrResult` processing returns the plain
string "done", which is submitted unchanged. -/
theorem C9_nondict_result_unchanged_witness :
    Event.resultSubmit "m1" (.pstr "done") ∈ (process_message envStrResult msg1).1 :=
  C9_nondict_result_unchanged envStrResult msg1 1 (.pstr "m1") 200 (.pstr "done")
    rfl rfl rfl rfl (by decide) rfl rfl rfl

/-- Claim C10: a non-dict message in the batch makes the dispatch
handler's fallback id lookup raise; the exception escapes the Dispatch
Engine and is caught at the polling level: later messages of the batch
are not dispatched, no subscription attempt happens that cycle, and the
Control Loop still runs every subsequent cycle. -/
theorem C10_nondict_escape (env : Env) (pre : List PyVal) (bad : PyVal) (post : List PyVal)
    (e : Exc)
    (hfetch : env.fetch = .ok200 (pre ++ bad :: post))
    (hpre : ∀ m ∈ pre, (process_message env m).2 = none)
    (hbad : (process_message env bad).2 = some e) :
    process_messages env =
      Event.log .info "Received messages to process"
        :: ((pre.map fun m => (process_message env m).1).flatten
            ++ (process_message env bad).1
            ++ [Event.log .error "Error checking for messages"])
    ∧ subscribeCount (process_messages env) = 0
    ∧ ∀ envs : List Env, (runCycles (env :: envs)).length = envs.length + 1 := by
  have hbatch := dispatchBatch_escape env pre bad post e hpre hbad
  have hne : (pre ++ bad :: post).isEmpty = false := by
    cases pre <;> rfl
  have hmain : process_messages env =
      Event.log .info "Received messages to process"
        :: ((pre.map fun m => (process_message env m).1).flatten
            ++ (process_message env bad).1
            ++ [Event.log .error "Error checking for messages"]) := by
    unfold process_messages
    rw [hfetch]
    dsimp only
    rw [hbatch]
    dsimp only
    rw [hne]
    simp
  refine ⟨hmain, ?_, fun envs => by simpa using runCycles_length (env :: envs)⟩
  apply subscribeCount_eq_zero
  intro ev hev
  rw [hmain] at hev
  rcases List.mem_cons.mp hev with h1 | h1
  · subst h1; rfl
  · rcases List.mem_append.mp h1 with h2 | h2
    · rcases List.mem_append.mp h2 with h3 | h3
      · rcases List.mem_flatten.mp h3 with ⟨l, hl, hev2⟩
        rcases List.mem_map.mp hl with ⟨m, hm, hrfl⟩
        subst hrfl
        exact process_message_no_subscribe env m ev hev2
      · exact process_message_no_subscribe env bad ev h3
    · simp at h2
      subst h2; rfl

/-- Claim C10 witness: `envBatchBad` fetches `[m1, "bad", m2]`; `m1` is
dispatched, the non-dict aborts the batch so `m2` is not dispatched, no
subscribe happens, and subsequent cycles still run. -/
theorem C10_nondict_escape_witness :
    process_messages envBatchBad =
      Event.log .info "Received messages to process"
        :: (([msg1].map fun m => (process_message envBatchBad m).1).flatten
            ++ (process_message envBatchBad (.pstr "bad")).1
            ++ [Event.log .error "Error checking for messages"])
    ∧ subscribeCount (process_messages envBatchBad) = 0
    ∧ ∀ envs : List Env, (runCycles (envBatchBad :: envs)).length = envs.length + 1 :=
  C10_nondict_escape envBatchBad [msg1] (.pstr "bad") [msg2] .attributeError rfl
    (by intro m hm; simp at hm; subst hm; rfl) rfl
